import Mathlib

/-!
# Verification of the flywall eBPF fast-path programs

A shallow embedding, in Lean 4, of the packet-processing programs under
src/internal/ebpf/programs/ of the flywall repository:

* include/common.h : parse_dns_name, parse_tls_sni, is_expired
* c/xdp_blocklist.c : is_ip_blocked, is_domain_blocked, update_statistics,
  send_event, get_or_create_flow, rate_limit_check, xdp_blocklist_prog
* c/tc_offload.c : extract_flow_key, apply_qos, update_stats, tc_fast_path
* c/dns_socket.c : send_dns_event, dns_socket_filter
* c/dhcp_socket.c : parse_dhcp_options
* c/socket_tls.c : produce_ja3_hash, tls_socket_filter

Modelling conventions:
* machine integers are Nat; arithmetic that can wrap in C carries an
  explicit % 2^32 or % 2^64;
* multi-byte header fields hold the value the C program reads from packet
  memory (a little-endian load of big-endian wire bytes), and the byte-swap
  performed by htons/ntohs/__bpf_ntohs is the function hton16 below;
* packet bytes past a validated boundary are never read: every read the C
  program guards with a data_end / data_len comparison is modelled with the
  same comparison, and List.getD supplies an (unreachable under the guard)
  default;
* BPF maps become function maps K → Option V, updated pointwise; the
  per-packet run is the sequential semantics of one program invocation;
* the ring buffer is modelled by a Bool saying whether the reservation
  succeeds, plus the list of submitted events;
* loops whose C termination argument is a strictly advancing cursor are
  given explicit fuel; the top-level wrappers pass fuel that exceeds the
  loop's iteration bound, and universal theorems quantify over the fuel.
-/

set_option autoImplicit false

namespace Flywall

/-- Byte swap of a 16-bit value: the effect of htons / ntohs / __bpf_ntohs
(__builtin_bswap16) on a value below 2^16. -/
def hton16 (x : Nat) : Nat := (x % 256) * 256 + (x / 256) % 256

/-! ## parse_dns_name (include/common.h, lines 403-465)

DNS label decompression.  The C loop state is (*pos, name_len, original_pos,
jumped, jumps); name_len always equals the number of name bytes written, so
the accumulated name list carries it.  The result records the returned int,
the final *pos, the name bytes written, and - as instrumentation - the number
of compression-pointer jumps actually performed (each assignment
*pos = offset).  The C variable jumps counts pointer encounters; a jump is
performed exactly when the previously performed count is at most 5. -/

structure DnsNameResult where
  ret : Int
  pos : Nat
  name : List Nat
  jumps : Nat
  deriving Repr, DecidableEq

/-- The inner copy loop of parse_dns_name:
for (i = 0; i < len && name_len < name_max - 1; i++) with the
printable-ASCII filter (non-printable bytes become a question mark, 63). -/
def copyLabel (data : List Nat) (nameMax : Nat) : Nat → Nat → List Nat → List Nat
  | _pos, 0, name => name
  | pos, rem + 1, name =>
    if name.length + 1 < nameMax then
      let c := data.getD pos 0
      let c2 := if 32 ≤ c ∧ c ≤ 126 then c else 63
      copyLabel data nameMax (pos + 1) rem (name ++ [c2])
    else name

/-- One C while-loop of parse_dns_name, with explicit fuel.  Running out of
fuel behaves like the loop condition failing; the top-level wrapper passes
fuel beyond the loop's iteration bound. -/
def parseDnsNameGo (data : List Nat) (dataLen nameMax : Nat) :
    Nat → Nat → List Nat → Nat → Bool → Nat → DnsNameResult
  | 0, pos, name, origPos, jumped, jumps =>
    { ret := (name.length : Int), pos := if jumped then origPos else pos,
      name := name, jumps := jumps }
  | fuel + 1, pos, name, origPos, jumped, jumps =>
    if pos < dataLen ∧ name.length + 1 < nameMax then
      let len := data.getD pos 0
      let pos1 := pos + 1
      if len = 0 then
        -- break: terminator byte consumed
        { ret := (name.length : Int), pos := if jumped then origPos else pos1,
          name := name, jumps := jumps }
      else if len &&& 0xC0 = 0xC0 then
        if pos1 ≥ dataLen then
          { ret := -1, pos := pos1, name := name, jumps := jumps }
        else
          let origPos2 := if jumped then origPos else pos1 + 1
          if jumps > 5 then
            { ret := -1, pos := pos1, name := name, jumps := jumps }
          else
            let offset := ((len &&& 0x3F) <<< 8) ||| data.getD pos1 0
            parseDnsNameGo data dataLen nameMax fuel offset name origPos2 true (jumps + 1)
      else
        if pos1 + len > dataLen then
          { ret := -1, pos := pos1, name := name, jumps := jumps }
        else
          let name1 := if name.length > 0 then name ++ [46] else name
          let name2 := copyLabel data nameMax pos1 len name1
          parseDnsNameGo data dataLen nameMax fuel (pos1 + len) name2 origPos jumped jumps
    else
      { ret := (name.length : Int), pos := if jumped then origPos else pos,
        name := name, jumps := jumps }

/-- parse_dns_name(data, data_len, &pos, name, name_max).  Each label
iteration grows the name, each pointer iteration is one of at most 7
encounters, so nameMax + dataLen + 16 fuel exceeds the iteration count. -/
def parseDnsName (data : List Nat) (dataLen pos nameMax : Nat) : DnsNameResult :=
  parseDnsNameGo data dataLen nameMax (nameMax + dataLen + 16) pos [] pos false 0

/-- The 12 header bytes of a DNS query followed by the wire encoding of
example.com: 7 example 3 com 0 - the buffer of spec section 8's round-trip
test. -/
def exampleComQuery : List Nat :=
  [0x12, 0x34, 0x01, 0x00, 0x00, 0x01, 0x00, 0x00, 0x00, 0x00, 0x00, 0x00,
   7, 101, 120, 97, 109, 112, 108, 101, 3, 99, 111, 109, 0]

/-- A buffer in which the name at offset 13 reaches its label only after six
chained compression pointers: 3 -> 0 is the sixth jump. -/
def sixJumpBuf : List Nat :=
  [1, 97, 0, 0xC0, 0x00, 0xC0, 0x03, 0xC0, 0x05, 0xC0, 0x07, 0xC0, 0x09, 0xC0, 0x0B]

/-- A buffer whose compression pointer targets offset 0x30, past the end of
the 2-byte buffer. -/
def wildPointerBuf : List Nat := [0xC0, 0x30]

example : (parseDnsName exampleComQuery 25 12 253).ret = 11 := by decide
example : (parseDnsName exampleComQuery 25 12 253).name =
    [101, 120, 97, 109, 112, 108, 101, 46, 99, 111, 109] := by decide
example : (parseDnsName exampleComQuery 25 12 253).pos = 25 := by decide
example : (parseDnsName sixJumpBuf 15 13 253).ret = 1 := by decide
example : (parseDnsName sixJumpBuf 15 13 253).jumps = 6 := by decide
example : (parseDnsName wildPointerBuf 2 0 253).ret = 0 := by decide

/-! ## Generic map operations

BPF hash maps, modelled as function maps.  bpf_map_update_elem and
bpf_map_delete_elem become pointwise updates; in this sequential,
capacity-unbounded model an insert always succeeds (a BPF_NOEXIST insert
fails only when racing or at capacity). -/

/-- Truncation to 64 bits: the wrap-around of C u64 arithmetic. -/
def w64 (x : Nat) : Nat := x % 2 ^ 64

/-- C unsigned 64-bit subtraction a - b, for a b < 2^64. -/
def u64sub (a b : Nat) : Nat := (a + 2 ^ 64 - b) % 2 ^ 64

def upd {K V : Type} [DecidableEq K] (m : K → Option V) (k : K) (v : V) :
    K → Option V :=
  fun k2 => if k2 = k then some v else m k2

def del {K V : Type} [DecidableEq K] (m : K → Option V) (k : K) : K → Option V :=
  fun k2 => if k2 = k then none else m k2

/-! ## xdp_blocklist.c

The XDP program.  Its per-invocation inputs are the parsed header fields it
loads from the packet (each field holds the value the u16/u32 load yields)
together with the byte list starting at dns_data = data + 42; its state is
the four maps it touches plus the ring buffer output. -/

/-- struct flow_key as used by xdp_blocklist.c (field names of flow.h,
ifindex never written there). -/
structure XdpFlowKey where
  srcIp : Nat
  dstIp : Nat
  srcPort : Nat
  dstPort : Nat
  ipProto : Nat
  deriving Repr, DecidableEq

/-- struct flow_state as used by xdp_blocklist.c: the fields of the
designated initializer in get_or_create_flow plus the counters the program
mutates. -/
structure XdpFlowState where
  verdict : Nat
  qosProfile : Nat
  flags : Nat
  packetCount : Nat
  byteCount : Nat
  lastSeen : Nat
  createdAt : Nat
  expiresAt : Nat
  deriving Repr, DecidableEq

/-- struct statistics (include/common.h). -/
structure XdpStats where
  packetsProcessed : Nat
  packetsDropped : Nat
  packetsPassed : Nat
  bytesProcessed : Nat
  blockedIps : Nat
  blockedDns : Nat
  flowsOffloaded : Nat
  eventsGenerated : Nat
  lastCleanup : Nat
  deriving Repr, DecidableEq

/-- struct event, as filled by send_event. -/
structure XdpEvent where
  etype : Nat
  srcIp : Nat
  dstIp : Nat
  srcPort : Nat
  dstPort : Nat
  protocol : Nat
  dataLen : Nat
  timestamp : Nat
  payload : List Nat
  deriving Repr, DecidableEq

/-- The maps of xdp_blocklist.c plus the submitted ring-buffer events.  The
ip_blocklist map doubles as the rate limiter's last-admitted store: both
is_ip_blocked and rate_limit_check address the same map. -/
structure XdpState where
  ipBlock : Nat → Option Nat
  flowMap : XdpFlowKey → Option XdpFlowState
  bloom : Nat → Option Nat
  stats : XdpStats
  events : List XdpEvent

def XDP_DROP : Nat := 1
def XDP_PASS : Nat := 2
def TRUSTED_FLOW_FLAG : Nat := 0x01
def RATE_LIMIT_WINDOW_NS : Nat := 1000000000
def FLOW_TIMEOUT_NS : Nat := 300000000000

/-- is_ip_blocked: membership in the ip_blocklist map. -/
def isIpBlocked (st : XdpState) (ip : Nat) : Bool :=
  (st.ipBlock ip).isSome

/-- The polynomial hash loop of is_domain_blocked (base 31, u32), over
min(len, 64) domain bytes. -/
def domainHash (domain : List Nat) : Nat :=
  List.foldl (fun h c => (h * 31 + c) % 2 ^ 32) 0 (domain.take 64)

/-- is_domain_blocked: bloom-filter membership of the hashed domain. -/
def isDomainBlocked (bloom : Nat → Option Nat) (domain : List Nat) : Bool :=
  let hash := domainHash domain
  let index := (hash % (131072 * 8)) / 8
  let bit := hash % 8
  match bloom index with
  | none => false
  | some b => b &&& (1 <<< bit) != 0

/-- update_statistics(packets, bytes, dropped). -/
def updateStatistics (s : XdpStats) (packets bytes dropped : Nat) : XdpStats :=
  let s1 := { s with packetsProcessed := w64 (s.packetsProcessed + packets),
                     bytesProcessed := w64 (s.bytesProcessed + bytes) }
  if dropped ≠ 0 then
    { s1 with packetsDropped := w64 (s1.packetsDropped + dropped) }
  else
    { s1 with packetsPassed := w64 (s1.packetsPassed + packets) }

/-- send_event: reserve, fill, submit.  A failed reservation returns with no
side effect at all - no counter is touched. -/
def sendEventX (st : XdpState) (ringbufOk : Bool)
    (etype srcIp dstIp srcPort dstPort protocol : Nat)
    (data : List Nat) (dataLen now : Nat) : XdpState :=
  if ringbufOk then
    { st with events := st.events ++
        [{ etype := etype, srcIp := srcIp, dstIp := dstIp, srcPort := srcPort,
           dstPort := dstPort, protocol := protocol, dataLen := dataLen,
           timestamp := now,
           payload := data.take (if dataLen > 64 then 64 else dataLen) }] }
  else st

/-- get_or_create_flow.  A hit returns the stored entry - expires_at is not
consulted.  A miss inserts the fresh state with verdict = XDP_PASS (2) and
returns it (the BPF_NOEXIST insert succeeds in this sequential model). -/
def getOrCreateFlow (m : XdpFlowKey → Option XdpFlowState) (key : XdpFlowKey)
    (now : Nat) : XdpFlowState × (XdpFlowKey → Option XdpFlowState) :=
  match m key with
  | some s => (s, m)
  | none =>
    let ns : XdpFlowState :=
      { verdict := XDP_PASS, qosProfile := 0, flags := 0,
        packetCount := 0, byteCount := 0, lastSeen := 0,
        createdAt := now, expiresAt := now + FLOW_TIMEOUT_NS }
    (ns, upd m key ns)

/-- rate_limit_check: one last-admitted slot per source IP in the
ip_blocklist map.  Rejection leaves the map untouched; admission records
now (BPF_EXIST falling back to BPF_NOEXIST always stores sequentially). -/
def rateLimitCheck (m : Nat → Option Nat) (ip now : Nat) :
    Bool × (Nat → Option Nat) :=
  match m ip with
  | some last =>
    if u64sub now last < RATE_LIMIT_WINDOW_NS then (false, m)
    else (true, upd m ip now)
  | none => (true, upd m ip now)

/-- The inner character-copy loop of the simplified domain extraction in
xdp_blocklist_prog (i counts from 0; guards pos+i+1 < 64 and
dns_data+pos+i+1 < data_end, the latter being 42+pos+i+1 < pktLen). -/
def xdpDomainCopy (dns : List Nat) (pktLen pos : Nat) :
    Nat → Nat → List Nat → List Nat
  | _i, 0, d => d
  | i, rem + 1, d =>
    if pos + i + 1 < 64 ∧ 42 + pos + i + 1 < pktLen then
      xdpDomainCopy dns pktLen pos (i + 1) rem (d ++ [dns.getD (pos + i + 1) 0])
    else d

/-- The domain-extraction while loop of xdp_blocklist_prog (lines 281-296),
with fuel; pos advances by len+1 ≥ 1 under pos < 63, so 64 fuel suffices. -/
def xdpDomainGo (dns : List Nat) (pktLen : Nat) :
    Nat → Nat → List Nat → List Nat
  | 0, _pos, d => d
  | fuel + 1, pos, d =>
    if pos < 63 ∧ 42 + pos < pktLen then
      let len := dns.getD pos 0
      if len = 0 then d
      else if d.length + len + 1 > 63 then d
      else
        let d1 := if d.length > 0 then d ++ [46] else d
        let d2 := xdpDomainCopy dns pktLen pos 0 len d1
        xdpDomainGo dns pktLen fuel (pos + len + 1) d2
    else d

def xdpExtractDomain (dns : List Nat) (pktLen : Nat) : List Nat :=
  xdpDomainGo dns pktLen 64 12 []

/-- The header fields xdp_blocklist_prog loads, each as the value the load
produces (u16/u32 fields in network byte order as stored), plus the packet
bytes from dns_data = data + 42 on. -/
structure XdpPacket where
  pktLen : Nat
  hProto : Nat
  fragOff : Nat
  saddr : Nat
  daddr : Nat
  protocol : Nat
  totLen : Nat
  udpSource : Nat
  udpDest : Nat
  dns : List Nat
  deriving Repr, DecidableEq

/-- The tail of xdp_blocklist_prog from get_or_create_flow on: per-flow
counters, the 100-packet offload threshold (which sets TRUSTED_FLOW_FLAG in
flags and bumps flows_offloaded - the verdict field is not written), and
the final verdict check against XDP_DROP. -/
def xdpFlowPart (st : XdpState) (key : XdpFlowKey) (packetLen now : Nat) :
    Nat × XdpState :=
  let gc := getOrCreateFlow st.flowMap key now
  let fs1 := { gc.1 with packetCount := w64 (gc.1.packetCount + 1),
                         byteCount := w64 (gc.1.byteCount + packetLen),
                         lastSeen := now }
  let offload : Bool := fs1.packetCount > 100 && fs1.flags &&& TRUSTED_FLOW_FLAG == 0
  let fs2 := if offload then { fs1 with flags := fs1.flags ||| TRUSTED_FLOW_FLAG }
             else fs1
  let stats1 := if offload
    then { st.stats with flowsOffloaded := w64 (st.stats.flowsOffloaded + 1) }
    else st.stats
  let fm2 := upd gc.2 key fs2
  if fs2.verdict = XDP_DROP then
    (XDP_DROP, { st with flowMap := fm2,
                         stats := updateStatistics stats1 1 packetLen 1 })
  else
    (XDP_PASS, { st with flowMap := fm2,
                         stats := updateStatistics stats1 1 packetLen 0 })

/-- xdp_blocklist_prog: the full program body.  Returns the XDP action and
the post-invocation state. -/
def xdpProg (st : XdpState) (p : XdpPacket) (now : Nat) (ringbufOk : Bool) :
    Nat × XdpState :=
  if p.pktLen < 14 then (XDP_PASS, st)
  else if p.hProto ≠ hton16 0x0800 then (XDP_PASS, st)
  else if p.pktLen < 14 + 20 then (XDP_PASS, st)
  else if p.fragOff &&& hton16 0x3FFF ≠ 0 then (XDP_PASS, st)
  else if isIpBlocked st p.saddr then
    let st1 := { st with stats := updateStatistics st.stats 1 (hton16 p.totLen) 1 }
    let st2 := sendEventX st1 ringbufOk 1 p.saddr p.daddr 0 0 p.protocol [] 0 now
    (XDP_DROP, st2)
  else
    let rl := rateLimitCheck st.ipBlock p.saddr now
    let st1 := { st with ipBlock := rl.2 }
    if ¬ rl.1 then
      (XDP_DROP, { st1 with stats := updateStatistics st1.stats 1 (hton16 p.totLen) 1 })
    else
      let key0 : XdpFlowKey :=
        { srcIp := p.saddr, dstIp := p.daddr, srcPort := 0, dstPort := 0,
          ipProto := p.protocol }
      if p.protocol = 6 ∨ p.protocol = 17 then
        if p.pktLen < 14 + 20 + 8 then (XDP_PASS, st1)
        else
          let key := { key0 with srcPort := p.udpSource, dstPort := p.udpDest }
          if p.protocol = 17 ∧ p.udpDest = hton16 53 then
            if 42 + 12 > p.pktLen then (XDP_PASS, st1)
            else if p.dns.getD 2 0 &&& 0x80 ≠ 0 then (XDP_PASS, st1)
            else
              let domain := xdpExtractDomain p.dns p.pktLen
              if isDomainBlocked st1.bloom domain then
                let st2 := { st1 with
                  stats := updateStatistics st1.stats 1 (hton16 p.totLen) 1 }
                let st3 := sendEventX st2 ringbufOk 2 p.saddr p.daddr
                  p.udpSource p.udpDest p.protocol domain domain.length now
                (XDP_DROP, st3)
              else xdpFlowPart st1 key (hton16 p.totLen) now
          else xdpFlowPart st1 key (hton16 p.totLen) now
      else xdpFlowPart st1 key0 (hton16 p.totLen) now

/-! ## tc_offload.c

The TC ingress classifier.  Its flow structures are those of flow.h
(flow_key with ifindex; flow_state with first_seen/offload_mark), its
verdict constants are VERDICT_UNKNOWN = 0, VERDICT_TRUSTED = 1,
VERDICT_DROP = 2. -/

def VERDICT_UNKNOWN : Nat := 0
def VERDICT_TRUSTED : Nat := 1
def VERDICT_DROP : Nat := 2
def NFQUEUE_BYPASS_MARK : Nat := 0x200000
def TC_ACT_OK : Int := 0
def TC_ACT_SHOT : Int := -2
def QOS_PROFILE_DEFAULT : Nat := 0
def QOS_PROFILE_VIDEO : Nat := 3
def QOS_PROFILE_VOICE : Nat := 4

/-- struct flow_key (flow.h). -/
structure TcFlowKey where
  srcIp : Nat
  dstIp : Nat
  srcPort : Nat
  dstPort : Nat
  ipProto : Nat
  ifindex : Nat
  deriving Repr, DecidableEq

/-- struct flow_state (flow.h). -/
structure TcFlowState where
  firstSeen : Nat
  lastSeen : Nat
  packetCount : Nat
  byteCount : Nat
  verdict : Nat
  offloadMark : Nat
  qosProfile : Nat
  flags : Nat
  deriving Repr, DecidableEq

/-- struct qos_profile (tc_offload.c). -/
structure QosProfile where
  rateLimit : Nat
  burstLimit : Nat
  priority : Nat
  appClass : Nat
  deriving Repr, DecidableEq

/-- struct tc_stats (tc_offload.c). -/
structure TcStats where
  packetsProcessed : Nat
  packetsFastPath : Nat
  packetsSlowPath : Nat
  packetsDropped : Nat
  bytesProcessed : Nat
  deriving Repr, DecidableEq

/-- The __sk_buff fields tc_fast_path reads and writes: parsed header
fields (raw loaded values), skb->len, skb->ifindex, and the mutable
mark / priority / queue_mapping. -/
structure Skb where
  pktLen : Nat
  len : Nat
  hProto : Nat
  ihl : Nat
  protocol : Nat
  saddr : Nat
  daddr : Nat
  sport : Nat
  dport : Nat
  ifindex : Nat
  mark : Nat
  priority : Nat
  queueMapping : Nat
  deriving Repr, DecidableEq

/-- The maps of tc_offload.c. -/
structure TcState where
  flowMap : TcFlowKey → Option TcFlowState
  qosProfiles : Nat → Option QosProfile
  stats : TcStats

/-- extract_flow_key: Ethernet/IPv4/TCP-or-UDP header walk producing the
5-tuple + ingress ifindex key, ports converted with __bpf_ntohs. -/
def extractFlowKey (skb : Skb) : Option TcFlowKey :=
  if skb.pktLen < 14 + 20 then none
  else if skb.hProto ≠ hton16 0x0800 then none
  else
    let base : TcFlowKey :=
      { srcIp := skb.saddr, dstIp := skb.daddr, srcPort := 0, dstPort := 0,
        ipProto := skb.protocol, ifindex := skb.ifindex }
    if skb.protocol = 6 then
      if 14 + skb.ihl * 4 + 20 > skb.pktLen then none
      else some { base with srcPort := hton16 skb.sport, dstPort := hton16 skb.dport }
    else if skb.protocol = 17 then
      if 14 + skb.ihl * 4 + 8 > skb.pktLen then none
      else some { base with srcPort := hton16 skb.sport, dstPort := hton16 skb.dport }
    else some base

/-- apply_qos: on a non-default profile found in the qos_profiles map, set
skb->priority, map video/voice classes to a queue, and or-in the QoS mark
bit 0x100000.  Always returns TC_ACT_OK. -/
def applyQos (st : TcState) (skb : Skb) (state : TcFlowState) : Skb × Int :=
  if state.qosProfile = QOS_PROFILE_DEFAULT then (skb, TC_ACT_OK)
  else
    match st.qosProfiles state.qosProfile with
    | none => (skb, TC_ACT_OK)
    | some qos =>
      let skb1 := { skb with priority := qos.priority }
      let skb2 :=
        if qos.appClass = QOS_PROFILE_VIDEO ∨ qos.appClass = QOS_PROFILE_VOICE then
          { skb1 with queueMapping := qos.appClass }
        else skb1
      ({ skb2 with mark := skb2.mark ||| 0x100000 }, TC_ACT_OK)

/-- update_stats(packets, bytes, fast_path, slow_path, dropped). -/
def tcUpdateStats (s : TcStats) (packets bytes fast slow dropped : Nat) : TcStats :=
  { s with packetsProcessed := w64 (s.packetsProcessed + packets),
           bytesProcessed := w64 (s.bytesProcessed + bytes),
           packetsFastPath := w64 (s.packetsFastPath + fast),
           packetsSlowPath := w64 (s.packetsSlowPath + slow),
           packetsDropped := w64 (s.packetsDropped + dropped) }

/-- tc_fast_path.  Returns the TC action, the modified skb, and the new
state.  Note the statistics update on a found entry: packet_count and
byte_count are incremented and bpf_ktime_get_ns() is fetch-ADDED onto
last_seen (as the source does).  No expiry check is made against
expires_at / the lookup result is used as is. -/
def tcFastPath (st : TcState) (skb : Skb) (now : Nat) : Int × Skb × TcState :=
  match extractFlowKey skb with
  | none => (TC_ACT_OK, skb, { st with stats := tcUpdateStats st.stats 1 skb.len 0 1 0 })
  | some key =>
    match st.flowMap key with
    | none => (TC_ACT_OK, skb, { st with stats := tcUpdateStats st.stats 1 skb.len 0 1 0 })
    | some s =>
      let s1 := { s with packetCount := w64 (s.packetCount + 1),
                         byteCount := w64 (s.byteCount + skb.len),
                         lastSeen := w64 (s.lastSeen + now) }
      let st1 := { st with flowMap := upd st.flowMap key s1 }
      if s1.verdict = VERDICT_TRUSTED then
        let skb1 := { skb with mark := NFQUEUE_BYPASS_MARK }
        let qr := applyQos st1 skb1 s1
        if qr.2 ≠ TC_ACT_OK then
          (qr.2, qr.1, { st1 with stats := tcUpdateStats st1.stats 1 skb.len 0 0 1 })
        else
          (TC_ACT_OK, qr.1, { st1 with stats := tcUpdateStats st1.stats 1 skb.len 1 0 0 })
      else if s1.verdict = VERDICT_DROP then
        (TC_ACT_SHOT, skb, { st1 with stats := tcUpdateStats st1.stats 1 skb.len 0 0 1 })
      else
        (TC_ACT_OK, skb, { st1 with stats := tcUpdateStats st1.stats 1 skb.len 0 1 0 })

/-! ## dns_socket.c

The DNS socket filter.  dns_socket_filter calls extract_domain(dns,
dns_len, &pos, domain, sizeof(domain)); that helper is not among the
sources, but its signature and role are exactly those of the repository's
DNS name parser parse_dns_name (include/common.h), which this model uses
for it.  The correlation logic the claims are about is entirely in
dns_socket.c. -/

/-- struct dns_key (include/common.h; the pad field the program zeroes is
not in the struct). -/
structure DnsKey where
  srcIp : Nat
  dstIp : Nat
  srcPort : Nat
  dstPort : Nat
  queryId : Nat
  deriving Repr, DecidableEq

/-- struct dns_query_info, including the packet_size member the program
writes (missing from the struct declaration in include/common.h). -/
structure DnsQueryInfo where
  domain : List Nat
  qtype : Nat
  qclass : Nat
  timestamp : Nat
  packetSize : Nat
  deriving Repr, DecidableEq

/-- struct dns_response_info. -/
structure DnsRespInfo where
  responseCode : Nat
  answerCount : Nat
  authorityCount : Nat
  additionalCount : Nat
  queryTimestamp : Nat
  responseTimestamp : Nat
  domain : List Nat
  packetSize : Nat
  deriving Repr, DecidableEq

/-- struct dns_event.  Fields the program leaves unset for a given variant
are modelled as 0 / []. -/
structure DnsEvent where
  timestamp : Nat
  pid : Nat
  tid : Nat
  srcIp : Nat
  dstIp : Nat
  srcPort : Nat
  dstPort : Nat
  queryId : Nat
  isResponse : Bool
  queryType : Nat
  queryClass : Nat
  responseCode : Nat
  answerCount : Nat
  domain : List Nat
  packetSize : Nat
  responseTimeNs : Nat
  deriving Repr, DecidableEq

/-- The dns_stats array slots. -/
structure DnsStats where
  queriesProcessed : Nat
  responsesProcessed : Nat
  queriesBlocked : Nat
  responsesBlocked : Nat
  packetsDropped : Nat
  errors : Nat
  deriving Repr, DecidableEq

structure DnsState where
  queries : DnsKey → Option DnsQueryInfo
  responses : Nat → Option DnsRespInfo
  stats : DnsStats
  events : List DnsEvent

/-- The packet fields dns_socket_filter loads, plus the DNS payload bytes
(from dns_data = data + 42 on) and skb->len. -/
structure DnsPacket where
  pktLen : Nat
  hProto : Nat
  ipProtocol : Nat
  saddr : Nat
  daddr : Nat
  udpSource : Nat
  udpDest : Nat
  udpLen : Nat
  dns : List Nat
  skbLen : Nat
  deriving Repr, DecidableEq

/-- send_dns_event.  A failed ring-buffer reservation increments
STAT_ERRORS and returns; response_time_ns is computed as
response_timestamp - query_timestamp only when query_timestamp > 0. -/
def sendDnsEvent (st : DnsState) (ringbufOk : Bool) (key : DnsKey)
    (queryInfo : Option DnsQueryInfo) (respInfo : Option DnsRespInfo)
    (isResponse : Bool) (now pid tid : Nat) : DnsState :=
  if ¬ ringbufOk then
    { st with stats := { st.stats with errors := w64 (st.stats.errors + 1) } }
  else
    let base : DnsEvent :=
      { timestamp := now, pid := pid, tid := tid,
        srcIp := key.srcIp, dstIp := key.dstIp,
        srcPort := key.srcPort, dstPort := key.dstPort,
        queryId := key.queryId, isResponse := isResponse,
        queryType := 0, queryClass := 0, responseCode := 0, answerCount := 0,
        domain := [], packetSize := 0, responseTimeNs := 0 }
    let ev :=
      match isResponse, queryInfo, respInfo with
      | true, _, some ri =>
        { base with responseCode := ri.responseCode,
                    answerCount := ri.answerCount,
                    packetSize := ri.packetSize,
                    domain := ri.domain,
                    responseTimeNs :=
                      if ri.queryTimestamp > 0 then
                        u64sub ri.responseTimestamp ri.queryTimestamp
                      else 0 }
      | false, some qi, _ =>
        { base with queryType := qi.qtype, queryClass := qi.qclass,
                    packetSize := qi.packetSize, domain := qi.domain }
      | _, _, _ => base
    { st with events := st.events ++ [ev] }

/-- dns_socket_filter.  Always passes the packet (returns 0); the
interesting output is the state: on a query, the DNSTransaction stored
under the packet's 5-tuple + id; on a response, the lookup under the
REVERSED 5-tuple + id, the response-info store, the event, and then the
delete - issued with the non-reversed key. -/
def dnsSocketFilter (st : DnsState) (p : DnsPacket) (now pid tid : Nat)
    (ringbufOk : Bool) : DnsState :=
  if p.pktLen < 14 + 20 + 8 then st
  else if p.hProto ≠ hton16 0x0800 ∨ p.ipProtocol ≠ 17 then st
  else if p.udpDest ≠ hton16 53 ∧ p.udpSource ≠ hton16 53 then st
  else
    let dnsLenI : Int := (hton16 p.udpLen : Int) - 8
    if 42 + dnsLenI > (p.pktLen : Int) ∨ dnsLenI < 12 then st
    else
      let dnsLen := dnsLenI.toNat
      let b := fun i => p.dns.getD i 0
      let transactionId := (b 0 <<< 8) ||| b 1
      let flags := (b 2 <<< 8) ||| b 3
      let questions := (b 4 <<< 8) ||| b 5
      let answers := (b 6 <<< 8) ||| b 7
      let isResponse := flags &&& 0x8000 ≠ 0
      let key : DnsKey :=
        { queryId := transactionId, srcIp := p.saddr, dstIp := p.daddr,
          srcPort := p.udpSource, dstPort := p.udpDest }
      let parsed := parseDnsName p.dns dnsLen 12 253
      if parsed.ret < 0 then
        { st with stats := { st.stats with errors := w64 (st.stats.errors + 1) } }
      else
        let domain := parsed.name
        let pos := parsed.pos
        if ¬ isResponse ∧ questions > 0 then
          let qi : DnsQueryInfo :=
            { domain := domain, timestamp := now, packetSize := p.skbLen,
              qtype := if pos + 4 ≤ dnsLen then (b pos <<< 8) ||| b (pos + 1) else 0,
              qclass := if pos + 4 ≤ dnsLen then (b (pos + 2) <<< 8) ||| b (pos + 3) else 0 }
          let st1 := { st with queries := upd st.queries key qi,
                               stats := { st.stats with
                                 queriesProcessed := w64 (st.stats.queriesProcessed + 1) } }
          sendDnsEvent st1 ringbufOk key (some qi) none false now pid tid
        else if isResponse ∧ answers > 0 then
          let lookupKey : DnsKey :=
            { queryId := transactionId, srcIp := p.daddr, dstIp := p.saddr,
              srcPort := p.udpDest, dstPort := p.udpSource }
          let ri0 : DnsRespInfo :=
            { packetSize := p.skbLen, responseTimestamp := now,
              answerCount := answers,
              authorityCount := (b 8 <<< 8) ||| b 9,
              additionalCount := (b 10 <<< 8) ||| b 11,
              responseCode := flags &&& 0x000F,
              domain := domain, queryTimestamp := 0 }
          let ri :=
            match st.queries lookupKey with
            | some q => { ri0 with queryTimestamp := q.timestamp }
            | none => ri0
          let st1 := { st with responses := upd st.responses transactionId ri,
                               stats := { st.stats with
                                 responsesProcessed := w64 (st.stats.responsesProcessed + 1) } }
          let st2 := sendDnsEvent st1 ringbufOk key none (some ri) true now pid tid
          -- "Clean up query entry": the delete uses key, not lookupKey
          { st2 with queries := del st2.queries key }
        else st

/-! ## dhcp_socket.c : parse_dhcp_options

Scans (type, length, value) triples from *pos.  A matching option's length
is first clamped to max_len (the destination capacity); the value is read
only if the clamped length also fits the remaining buffer, otherwise the
scan skips past the option (advancing by the clamped length) and continues.
Option 255 or running off the buffer ends the scan with -1. -/

structure DhcpOptResult where
  ret : Int
  pos : Nat
  value : List Nat
  deriving Repr, DecidableEq

/-- One while-iteration of parse_dhcp_options, with fuel (pos advances by
at least 2 per iteration). -/
def parseDhcpOptionsGo (data : List Nat) (dataLen : Nat)
    (optionType maxLen : Nat) : Nat → Nat → DhcpOptResult
  | 0, pos => { ret := -1, pos := pos, value := [] }
  | fuel + 1, pos =>
    if pos + 2 ≤ dataLen then
      let opt := data.getD pos 0
      let optLen := data.getD (pos + 1) 0
      let pos1 := pos + 2
      if opt = 255 then { ret := -1, pos := pos1, value := [] }
      else if opt = optionType then
        let optLen2 := if optLen > maxLen then maxLen else optLen
        if pos1 + optLen2 ≤ dataLen then
          { ret := (optLen2 : Int), pos := pos1,
            value := (data.drop pos1).take optLen2 }
        else parseDhcpOptionsGo data dataLen optionType maxLen fuel (pos1 + optLen2)
      else parseDhcpOptionsGo data dataLen optionType maxLen fuel (pos1 + optLen)
    else { ret := -1, pos := pos, value := [] }

/-- parse_dhcp_options(data, data_len, &pos, option_type, option_value,
max_len). -/
def parseDhcpOptions (data : List Nat) (dataLen pos optionType maxLen : Nat) :
    DhcpOptResult :=
  parseDhcpOptionsGo data dataLen optionType maxLen (dataLen + 2) pos

/-! ## socket_tls.c and parse_tls_sni (include/common.h) -/

def MAX_SNI_LEN : Nat := 64

structure SniResult where
  ret : Int
  sni : List Nat
  deriving Repr, DecidableEq

/-- The SNI copy loop: for (i = 0; i < sni_len && pos + i < data_len; i++). -/
def sniCopy (data : List Nat) (dataLen pos : Nat) :
    Nat → Nat → List Nat → List Nat
  | _i, 0, acc => acc
  | i, rem + 1, acc =>
    if pos + i < dataLen then
      sniCopy data dataLen pos (i + 1) rem (acc ++ [data.getD (pos + i) 0])
    else acc

/-- The extensions walk of parse_tls_sni, with fuel (pos advances by
4 + ext_len ≥ 4 per iteration). -/
def tlsExtGo (data : List Nat) (dataLen sniMax extensionsEnd : Nat) :
    Nat → Nat → SniResult
  | 0, _pos => { ret := 0, sni := [] }
  | fuel + 1, pos =>
    if pos + 4 ≤ extensionsEnd ∧ pos < dataLen then
      let extType := (data.getD pos 0 <<< 8) ||| data.getD (pos + 1) 0
      let extLen := (data.getD (pos + 2) 0 <<< 8) ||| data.getD (pos + 3) 0
      let pos1 := pos + 4
      if pos1 + extLen > dataLen then { ret := -1, sni := [] }
      else if extType = 0 then
        if pos1 + 2 > dataLen then { ret := -1, sni := [] }
        else
          let pos2 := pos1 + 2
          if pos2 + 3 > dataLen then { ret := -1, sni := [] }
          else
            let pos3 := pos2 + 3
            let sniLen0 := (data.getD (pos3 - 2) 0 <<< 8) ||| data.getD (pos3 - 1) 0
            let sniLen := if sniLen0 ≥ sniMax then sniMax - 1 else sniLen0
            { ret := (sniLen : Int), sni := sniCopy data dataLen pos3 0 sniLen [] }
      else tlsExtGo data dataLen sniMax extensionsEnd fuel (pos1 + extLen)
    else { ret := 0, sni := [] }

/-- parse_tls_sni(data, data_len, sni, sni_max): skip the record and
handshake headers, session id, cipher suites and compression methods, then
walk the extensions for SNI (type 0). -/
def parseTlsSni (data : List Nat) (dataLen sniMax : Nat) : SniResult :=
  if dataLen < 9 then { ret := -1, sni := [] }
  else
    let pos0 := 9
    if pos0 + 1 ≥ dataLen then { ret := -1, sni := [] }
    else
      let sessionIdLen := data.getD pos0 0
      let pos1 := pos0 + 1 + sessionIdLen
      if pos1 + 2 ≥ dataLen then { ret := -1, sni := [] }
      else
        let cipherSuitesLen := (data.getD pos1 0 <<< 8) ||| data.getD (pos1 + 1) 0
        let pos2 := pos1 + 2 + cipherSuitesLen
        if pos2 + 1 ≥ dataLen then { ret := -1, sni := [] }
        else
          let compressionMethodsLen := data.getD pos2 0
          let pos3 := pos2 + 1 + compressionMethodsLen
          if pos3 + 2 ≥ dataLen then { ret := -1, sni := [] }
          else
            let extensionsLen := (data.getD pos3 0 <<< 8) ||| data.getD (pos3 + 1) 0
            let pos4 := pos3 + 2
            let extensionsEnd := pos4 + extensionsLen
            tlsExtGo data dataLen sniMax extensionsEnd (extensionsLen + 8) pos4

/-- struct tls_key. -/
structure TlsKey where
  srcIp : Nat
  dstIp : Nat
  srcPort : Nat
  dstPort : Nat
  deriving Repr, DecidableEq

/-- struct tls_handshake_info: version, cipher_suite, sni, ja3_hash (four
u32 words = 128 bits), timestamp.  The sni char[64] array is modelled by
the list of bytes written before its NUL terminator (the rest of the array
stays zero). -/
structure TlsInfo where
  version : Nat
  cipherSuite : Nat
  sni : List Nat
  ja3Hash : List Nat
  timestamp : Nat
  deriving Repr, DecidableEq

structure TlsStats where
  handshakesObserved : Nat
  certificatesValid : Nat
  certificatesInvalid : Nat
  errors : Nat
  deriving Repr, DecidableEq

/-- struct tls_event (the fields send_tls_event fills). -/
structure TlsEvent where
  timestamp : Nat
  pid : Nat
  tid : Nat
  srcIp : Nat
  dstIp : Nat
  srcPort : Nat
  dstPort : Nat
  version : Nat
  cipherSuite : Nat
  sni : List Nat
  ja3Hash : List Nat
  packetSize : Nat
  deriving Repr, DecidableEq

structure TlsState where
  handshakes : TlsKey → Option TlsInfo
  stats : TlsStats
  events : List TlsEvent

/-- produce_ja3_hash: ja3_hash[0] = version, ja3_hash[1] = cipher_suite,
ja3_hash[2] and ja3_hash[3] XOR-fold shifted SNI array bytes (the char[64]
array: written bytes then zeros). -/
def produceJa3 (version cipherSuite : Nat) (sni : List Nat) : List Nat :=
  let arr := (sni ++ List.replicate MAX_SNI_LEN 0).take MAX_SNI_LEN
  let h2 := List.foldl (fun h i => h ^^^ (arr.getD i 0 <<< (i % 24))) 0
    (List.range MAX_SNI_LEN)
  let h3 := List.foldl (fun h i => h ^^^ (arr.getD i 0 <<< ((i + 13) % 24))) 0
    (List.range MAX_SNI_LEN)
  [version % 2 ^ 32, cipherSuite % 2 ^ 32, h2 % 2 ^ 32, h3 % 2 ^ 32]

/-- The packet fields tls_socket_filter loads, plus the TCP payload bytes
(from payload = tcp + doff*4 on) and skb->len. -/
structure TlsPacket where
  pktLen : Nat
  hProto : Nat
  ihl : Nat
  protocol : Nat
  doff : Nat
  saddr : Nat
  daddr : Nat
  sport : Nat
  dport : Nat
  payload : List Nat
  skbLen : Nat
  deriving Repr, DecidableEq

/-- send_tls_event: a failed reservation increments STAT_ERRORS. -/
def sendTlsEvent (st : TlsState) (ringbufOk : Bool) (key : TlsKey)
    (info : TlsInfo) (now pid tid skbLen : Nat) : TlsState :=
  if ¬ ringbufOk then
    { st with stats := { st.stats with errors := w64 (st.stats.errors + 1) } }
  else
    { st with events := st.events ++
        [{ timestamp := now, pid := pid, tid := tid,
           srcIp := key.srcIp, dstIp := key.dstIp,
           srcPort := key.srcPort, dstPort := key.dstPort,
           version := info.version, cipherSuite := info.cipherSuite,
           sni := info.sni, ja3Hash := info.ja3Hash, packetSize := skbLen }] }

/-- tls_socket_filter.  Builds tls_handshake_info from a ClientHello:
timestamp and the record-header version are set, the SNI comes from
parse_tls_sni, the fingerprint from produce_ja3_hash; the cipher_suite
member is never assigned and keeps its zero initializer. -/
def tlsSocketFilter (st : TlsState) (p : TlsPacket) (now pid tid : Nat)
    (ringbufOk : Bool) : TlsState :=
  if p.pktLen < 14 + 20 + 20 then st
  else if p.hProto ≠ hton16 0x0800 ∨ p.protocol ≠ 6 then st
  else
    let payloadStart := 14 + p.ihl * 4 + p.doff * 4
    if payloadStart + 5 > p.pktLen then st
    else
      let b := fun i => p.payload.getD i 0
      let contentType := b 0
      let version := (b 1 <<< 8) ||| b 2
      if contentType ≠ 0x16 then st
      else if payloadStart + 5 + 4 > p.pktLen then st
      else if b 5 ≠ 0x01 then st
      else
        let key : TlsKey :=
          { srcIp := p.saddr, dstIp := p.daddr,
            srcPort := p.sport, dstPort := p.dport }
        let payloadLen := p.pktLen - payloadStart
        let sniRes := parseTlsSni p.payload payloadLen MAX_SNI_LEN
        let info : TlsInfo :=
          { timestamp := now, version := version, cipherSuite := 0,
            sni := sniRes.sni, ja3Hash := produceJa3 version 0 sniRes.sni }
        let st1 := { st with handshakes := upd st.handshakes key info,
                             stats := { st.stats with
                               handshakesObserved := w64 (st.stats.handshakesObserved + 1) } }
        sendTlsEvent st1 ringbufOk key info now pid tid p.skbLen

/-- is_expired (include/common.h): current time strictly past expires_at.
Defined by the repository but called from none of the programs. -/
def isExpired (now expiresAt : Nat) : Bool := now > expiresAt

/-! ## Shared lemmas and concrete scenario data -/

/-- u64 subtraction is plain subtraction for an in-range, monotonic clock. -/
theorem u64sub_eq_sub {t now : Nat} (h1 : t ≤ now) (h2 : now < 2 ^ 64) :
    u64sub now t = now - t := by
  unfold u64sub
  have h3 : now + 2 ^ 64 - t = (now - t) + 2 ^ 64 := by omega
  rw [h3, Nat.add_mod_right]
  exact Nat.mod_eq_of_lt (by omega)

/-- The jump counter of parse_dns_name never records more than 6 performed
jumps: a pointer is followed only when at most 5 jumps were already
performed. -/
theorem parseDnsNameGo_jumps_le (data : List Nat) (dataLen nameMax : Nat) :
    ∀ (fuel pos : Nat) (name : List Nat) (origPos : Nat) (jumped : Bool)
      (jumps : Nat), jumps ≤ 6 →
      (parseDnsNameGo data dataLen nameMax fuel pos name origPos jumped jumps).jumps ≤ 6 := by
  intro fuel
  induction fuel with
  | zero =>
    intro pos name origPos jumped jumps h
    simpa [parseDnsNameGo] using h
  | succ n ih =>
    intro pos name origPos jumped jumps h
    simp only [parseDnsNameGo]
    split
    · split
      · exact h
      · split
        · split
          · exact h
          · split
            · exact h
            · exact ih _ _ _ _ _ (by omega)
        · split
          · exact h
          · exact ih _ _ _ _ _ h
    · exact h

/-- An empty XDP statistics block. -/
def xdpStats0 : XdpStats :=
  { packetsProcessed := 0, packetsDropped := 0, packetsPassed := 0,
    bytesProcessed := 0, blockedIps := 0, blockedDns := 0,
    flowsOffloaded := 0, eventsGenerated := 0, lastCleanup := 0 }

/-- An XDP state with one blocklisted IP (10.0.0.1) and nothing else. -/
def xdpStBlocked : XdpState :=
  { ipBlock := upd (fun _ => none) 0x0A000001 1,
    flowMap := fun _ => none, bloom := fun _ => none,
    stats := xdpStats0, events := [] }

/-- A fragmented TCP packet from the blocklisted source 10.0.0.1:
frag_off carries the more-fragments bit (wire 0x2000, loaded as 0x0020). -/
def fragPkt : XdpPacket :=
  { pktLen := 60, hProto := hton16 0x0800, fragOff := hton16 0x2000,
    saddr := 0x0A000001, daddr := 0x0B000002, protocol := 6,
    totLen := hton16 46, udpSource := 0x1234, udpDest := 0x50, dns := [] }

/-! ## C10 -/

/-- C10: an IPv4 packet whose fragment-offset field has any bit of the
more-fragments flag or the 13-bit offset set (mask 0x3FFF on the wire,
hton16 0x3FFF = 0xFF3F on the loaded field) makes xdp_blocklist_prog
return XDP_PASS with the state - blocklist, rate-limiter slot, flow map,
bloom filter, statistics and events - entirely unchanged, whatever the
source IP. -/
theorem C10_fragmented_pass_no_state_change (st : XdpState) (p : XdpPacket)
    (now : Nat) (ringbufOk : Bool)
    (h1 : 14 ≤ p.pktLen) (h2 : p.hProto = hton16 0x0800)
    (h3 : 14 + 20 ≤ p.pktLen) (h4 : p.fragOff &&& hton16 0x3FFF ≠ 0) :
    xdpProg st p now ringbufOk = (XDP_PASS, st) := by
  unfold xdpProg
  rw [if_neg (by omega), if_neg (by simp [h2]), if_neg (by omega), if_pos h4]

/-- Witness for C10: the fragmented packet above comes from the
blocklisted source of xdpStBlocked and is still passed, untouched state. -/
theorem C10_fragmented_pass_no_state_change_witness :
    isIpBlocked xdpStBlocked fragPkt.saddr = true ∧
    xdpProg xdpStBlocked fragPkt 1000 true = (XDP_PASS, xdpStBlocked) :=
  ⟨by decide,
   C10_fragmented_pass_no_state_change xdpStBlocked fragPkt 1000 true
     (by decide) (by decide) (by decide) (by decide)⟩

/-! ## C5 -/

def rlIp : Nat := 0x0A000001
def rlT0 : Nat := 5000000000
def rlM1 : Nat → Option Nat := (rateLimitCheck (fun _ => none) rlIp rlT0).2

/-- C5: with a monotonic clock, rate_limit_check admits a packet exactly
when the source IP has no recorded last-admitted timestamp or the window
has elapsed; concretely, a first packet is admitted, a second 1 ms later
is rejected (leaving the slot untouched), and one 1.1 s later is
admitted. -/
theorem C5_rate_limiter_window (m : Nat → Option Nat) (ip now : Nat)
    (hmono : ∀ t, m ip = some t → t ≤ now) (hnow : now < 2 ^ 64) :
    ((rateLimitCheck m ip now).1 = true ↔
      (m ip = none ∨ ∃ t, m ip = some t ∧ RATE_LIMIT_WINDOW_NS ≤ now - t)) ∧
    (rateLimitCheck (fun _ => none) rlIp rlT0).1 = true ∧
    (rateLimitCheck rlM1 rlIp (rlT0 + 1000000)).1 = false ∧
    (rateLimitCheck rlM1 rlIp (rlT0 + 1000000)).2 = rlM1 ∧
    (rateLimitCheck rlM1 rlIp (rlT0 + 1100000000)).1 = true := by
  refine ⟨?_, by decide, by decide, rfl, by decide⟩
  unfold rateLimitCheck
  rcases hm : m ip with _ | t
  · simp
  · have hs : u64sub now t = now - t := u64sub_eq_sub (hmono t hm) hnow
    by_cases hw : now - t < RATE_LIMIT_WINDOW_NS
    · simp only [hs, if_pos hw]
      simp only [Option.some.injEq]
      constructor
      · intro hc; exact absurd hc (by simp)
      · rintro (h | ⟨t2, ht2, hle⟩)
        · exact absurd h (by simp)
        · subst ht2; omega
    · simp only [hs, if_neg hw]
      constructor
      · intro _; exact Or.inr ⟨t, rfl, by omega⟩
      · intro _; trivial

/-- Witness for C5: the iff instantiated at the one-entry map rlM1, 1.1 s
after the recorded admission. -/
theorem C5_rate_limiter_window_witness :
    ((rateLimitCheck rlM1 rlIp (rlT0 + 1100000000)).1 = true ↔
      (rlM1 rlIp = none ∨
        ∃ t, rlM1 rlIp = some t ∧
          RATE_LIMIT_WINDOW_NS ≤ (rlT0 + 1100000000) - t)) ∧
    (rateLimitCheck (fun _ => none) rlIp rlT0).1 = true :=
  ⟨(C5_rate_limiter_window rlM1 rlIp (rlT0 + 1100000000)
      (by intro t ht; simp [rlM1, rateLimitCheck, upd, rlIp, rlT0] at ht ⊢; omega)
      (by decide)).1,
   (C5_rate_limiter_window rlM1 rlIp (rlT0 + 1100000000)
      (by intro t ht; simp [rlM1, rateLimitCheck, upd, rlIp, rlT0] at ht ⊢; omega)
      (by decide)).2.1⟩

/-! ## C4 -/

/-- Counterexample to C4: parse_dns_name resolves the six-pointer chain of
sixJumpBuf successfully (more than 5 jumps, non-negative result), and a
compression pointer whose target offset 0x30 lies outside the 2-byte buffer
ends parsing with the non-negative result 0 instead of failing. -/
theorem C4_cex_six_jumps_and_wild_pointer_accepted :
    0 ≤ (parseDnsName sixJumpBuf 15 13 253).ret ∧
    (parseDnsName sixJumpBuf 15 13 253).jumps = 6 ∧
    0 ≤ (parseDnsName wildPointerBuf 2 0 253).ret := by decide

/-- C4 (amended): parse_dns_name performs at most 6 compression-pointer
jumps; a 7th pointer, a pointer truncated at the buffer's last byte, and a
label length overrunning the buffer each fail with -1; a pointer whose
target offset lies at or beyond the buffer end merely ends parsing with the
name accumulated so far; and parsing the example.com query buffer recovers
exactly example.com. -/
theorem C4_amended_decompression_bounds :
    (∀ (data : List Nat) (dataLen pos nameMax : Nat),
      (parseDnsName data dataLen pos nameMax).jumps ≤ 6) ∧
    (∀ (data : List Nat) (dataLen nameMax fuel pos : Nat) (name : List Nat)
      (origPos : Nat) (jumped : Bool) (jumps : Nat),
      pos < dataLen → name.length + 1 < nameMax → data.getD pos 0 ≠ 0 →
      data.getD pos 0 &&& 0xC0 = 0xC0 → pos + 1 ≥ dataLen →
      (parseDnsNameGo data dataLen nameMax (fuel + 1) pos name origPos jumped jumps).ret = -1) ∧
    (∀ (data : List Nat) (dataLen nameMax fuel pos : Nat) (name : List Nat)
      (origPos : Nat) (jumped : Bool) (jumps : Nat),
      pos < dataLen → name.length + 1 < nameMax → data.getD pos 0 ≠ 0 →
      data.getD pos 0 &&& 0xC0 = 0xC0 → pos + 1 < dataLen → jumps > 5 →
      (parseDnsNameGo data dataLen nameMax (fuel + 1) pos name origPos jumped jumps).ret = -1) ∧
    (∀ (data : List Nat) (dataLen nameMax fuel pos : Nat) (name : List Nat)
      (origPos : Nat) (jumped : Bool) (jumps : Nat),
      pos < dataLen → name.length + 1 < nameMax → data.getD pos 0 ≠ 0 →
      data.getD pos 0 &&& 0xC0 ≠ 0xC0 → pos + 1 + data.getD pos 0 > dataLen →
      (parseDnsNameGo data dataLen nameMax (fuel + 1) pos name origPos jumped jumps).ret = -1) ∧
    (parseDnsName exampleComQuery 25 12 253).ret = 11 ∧
    (parseDnsName exampleComQuery 25 12 253).name =
      [101, 120, 97, 109, 112, 108, 101, 46, 99, 111, 109] := by
  refine ⟨?_, ?_, ?_, ?_, by decide, by decide⟩
  · intro data dataLen pos nameMax
    exact parseDnsNameGo_jumps_le data dataLen nameMax _ pos [] pos false 0 (by omega)
  · intro data dataLen nameMax fuel pos name origPos jumped jumps h1 h2 h3 h4 h5
    simp only [parseDnsNameGo, if_pos (And.intro h1 h2), if_neg h3, if_pos h4,
      if_pos h5]
  · intro data dataLen nameMax fuel pos name origPos jumped jumps h1 h2 h3 h4 h5 h6
    simp only [parseDnsNameGo, if_pos (And.intro h1 h2), if_neg h3, if_pos h4,
      if_neg (by omega : ¬ pos + 1 ≥ dataLen), if_pos h6]
  · intro data dataLen nameMax fuel pos name origPos jumped jumps h1 h2 h3 h4 h5
    simp only [parseDnsNameGo, if_pos (And.intro h1 h2), if_neg h3, if_neg h4,
      if_pos h5]

/-- Witness for C4 (amended): the jump bound at the wild-pointer buffer,
and the truncated-pointer failure on the one-byte buffer 0xC0. -/
theorem C4_amended_decompression_bounds_witness :
    (parseDnsName wildPointerBuf 2 0 253).jumps ≤ 6 ∧
    (parseDnsNameGo [0xC0] 1 253 1 0 [] 0 false 0).ret = -1 ∧
    (parseDnsNameGo [0xC0, 0x02, 0x61] 3 253 1 0 [] 0 false 6).ret = -1 ∧
    (parseDnsNameGo [5, 0x61] 2 253 1 0 [] 0 false 0).ret = -1 :=
  ⟨C4_amended_decompression_bounds.1 wildPointerBuf 2 0 253,
   C4_amended_decompression_bounds.2.1 [0xC0] 1 253 0 0 [] 0 false 0
     (by decide) (by decide) (by decide) (by decide) (by decide),
   C4_amended_decompression_bounds.2.2.1 [0xC0, 0x02, 0x61] 3 253 0 0 [] 0 false 6
     (by decide) (by decide) (by decide) (by decide) (by decide) (by decide),
   C4_amended_decompression_bounds.2.2.2.1 [5, 0x61] 2 253 0 0 [] 0 false 0
     (by decide) (by decide) (by decide) (by decide) (by decide)⟩

/-! ## C1 -/

def dnsStats0 : DnsStats :=
  { queriesProcessed := 0, responsesProcessed := 0, queriesBlocked := 0,
    responsesBlocked := 0, packetsDropped := 0, errors := 0 }

def dnsSt0 : DnsState :=
  { queries := fun _ => none, responses := fun _ => none,
    stats := dnsStats0, events := [] }

/-- A DNS query 10.0.0.1 -> 8.8.8.8:53, transaction id 0x1234, for
example.com (udp->len loads as hton16 33, i.e. wire length 33 = 8 + 25). -/
def dnsQueryPkt : DnsPacket :=
  { pktLen := 67, hProto := hton16 0x0800, ipProtocol := 17,
    saddr := 0x0A000001, daddr := 0x08080808,
    udpSource := 0x3930, udpDest := hton16 53,
    udpLen := hton16 33, dns := exampleComQuery, skbLen := 67 }

/-- The DNS payload of the matching response: QR set (flags 0x8180),
one answer. -/
def dnsRespBytes : List Nat :=
  [0x12, 0x34, 0x81, 0x80, 0x00, 0x01, 0x00, 0x01, 0x00, 0x00, 0x00, 0x00,
   7, 101, 120, 97, 109, 112, 108, 101, 3, 99, 111, 109, 0]

/-- The matching response 8.8.8.8:53 -> 10.0.0.1, same transaction id. -/
def dnsRespPkt : DnsPacket :=
  { pktLen := 67, hProto := hton16 0x0800, ipProtocol := 17,
    saddr := 0x08080808, daddr := 0x0A000001,
    udpSource := hton16 53, udpDest := 0x3930,
    udpLen := hton16 33, dns := dnsRespBytes, skbLen := 67 }

/-- The key under which the query transaction is stored: the query
packet's own 5-tuple plus id - equal to the response's reversed tuple. -/
def dnsQKey : DnsKey :=
  { queryId := 0x1234, srcIp := 0x0A000001, dstIp := 0x08080808,
    srcPort := 0x3930, dstPort := hton16 53 }

def dnsSt1 : DnsState := dnsSocketFilter dnsSt0 dnsQueryPkt 1000 1 1 true
def dnsSt2 : DnsState := dnsSocketFilter dnsSt1 dnsRespPkt 1500 1 1 true
def dnsSt3 : DnsState := dnsSocketFilter dnsSt2 dnsRespPkt 9000 1 1 true

/-- C1 (code bug): the first response does compute
response_time_ns = 1500 - 1000 = 500 from the stored query, but the
clean-up delete is issued with the response's own 5-tuple instead of the
reversed one, so the stored DNSTransaction survives and a second identical
response still finds the query (response_time_ns = 9000 - 1000 = 8000,
where a deleted transaction would have produced 0). -/
theorem C1_response_leaves_transaction_stored :
    (dnsSt1.queries dnsQKey).isSome = true ∧
    (dnsSt2.queries dnsQKey).isSome = true ∧
    dnsSt2.events.map DnsEvent.responseTimeNs = [0, 500] ∧
    dnsSt3.events.map DnsEvent.responseTimeNs = [0, 500, 8000] := by decide

/-! ## C2 -/

def xdpKeyEx : XdpFlowKey :=
  { srcIp := 1, dstIp := 2, srcPort := 0x1234, dstPort := 0x50, ipProto := 6 }

/-- The flow state get_or_create_flow installs for a first-seen packet. -/
def newFlowState : XdpFlowState := (getOrCreateFlow (fun _ => none) xdpKeyEx 1000).1

def tcStats0 : TcStats :=
  { packetsProcessed := 0, packetsFastPath := 0, packetsSlowPath := 0,
    packetsDropped := 0, bytesProcessed := 0 }

/-- A TCP skb 1 -> 2 whose extract_flow_key succeeds. -/
def tcSkbEx : Skb :=
  { pktLen := 60, len := 60, hProto := hton16 0x0800, ihl := 5, protocol := 6,
    saddr := 1, daddr := 2, sport := 0x1234, dport := 0x50, ifindex := 3,
    mark := 0, priority := 0, queueMapping := 0 }

/-- The key extract_flow_key derives from tcSkbEx. -/
def tcKeyEx : TcFlowKey :=
  { srcIp := 1, dstIp := 2, srcPort := hton16 0x1234, dstPort := hton16 0x50,
    ipProto := 6, ifindex := 3 }

/-- A tc flow entry carrying the verdict value a first-seen packet receives
from get_or_create_flow. -/
def tcEntryNewVerdict : TcFlowState :=
  { firstSeen := 0, lastSeen := 0, packetCount := 0, byteCount := 0,
    verdict := newFlowState.verdict, offloadMark := 0, qosProfile := 0,
    flags := 0 }

def tcStNewVerdict : TcState :=
  { flowMap := upd (fun _ => none) tcKeyEx tcEntryNewVerdict,
    qosProfiles := fun _ => none, stats := tcStats0 }

/-- C2 (code bug): get_or_create_flow initializes verdict to XDP_PASS = 2,
but 2 is VERDICT_DROP in the verdict vocabulary of the TC fast path, and
not VERDICT_UNKNOWN = 0: a flow state created for a first-seen packet is
read by tc_fast_path's verdict check as Drop, and the packet is shot. -/
theorem C2_first_seen_verdict_is_drop_for_tc :
    newFlowState.verdict = XDP_PASS ∧
    XDP_PASS = VERDICT_DROP ∧
    newFlowState.verdict ≠ VERDICT_UNKNOWN ∧
    (tcFastPath tcStNewVerdict tcSkbEx 2000).1 = TC_ACT_SHOT := by decide

/-! ## C3 -/

def xdpSt0 : XdpState :=
  { ipBlock := fun _ => none, flowMap := fun _ => none, bloom := fun _ => none,
    stats := xdpStats0, events := [] }

/-- A plain TCP packet 1 -> 2 (no DNS), always on the same flow. -/
def c3Pkt : XdpPacket :=
  { pktLen := 60, hProto := hton16 0x0800, fragOff := 0, saddr := 1, daddr := 2,
    protocol := 6, totLen := hton16 46, udpSource := 0x1234, udpDest := 0x50,
    dns := [] }

def c3Key : XdpFlowKey :=
  { srcIp := 1, dstIp := 2, srcPort := 0x1234, dstPort := 0x50, ipProto := 6 }

/-- n consecutive runs of the XDP program on c3Pkt, 2 s apart (so the
rate limiter admits each one). -/
def c3Run : Nat → XdpState
  | 0 => xdpSt0
  | n + 1 => (xdpProg (c3Run n) c3Pkt ((n + 1) * 2000000000) true).2

/-- A tc flow entry carrying the flow state left by the 101st packet:
verdict still 2, flags with TRUSTED_FLOW_FLAG set. -/
def tcEntryAfter101 : TcFlowState :=
  { firstSeen := 0, lastSeen := 0, packetCount := 101, byteCount := 4646,
    verdict := 2, offloadMark := 0, qosProfile := 0, flags := 1 }

def tcStAfter101 : TcState :=
  { flowMap := upd (fun _ => none) tcKeyEx tcEntryAfter101,
    qosProfiles := fun _ => none, stats := tcStats0 }

set_option maxRecDepth 40000

/-- n consecutive packets pushed directly through the flow-update tail of
the XDP program (the code region C3 describes), 2 s apart. -/
def c3Flow : Nat → XdpState
  | 0 => xdpSt0
  | n + 1 => (xdpFlowPart (c3Flow n) c3Key 46 ((n + 1) * 2000000000)).2

/-- Counterexample to C3, in two parts.  Through the full program the
claimed scenario never develops: every packet after the first is dropped,
because rate_limit_check records its last-admitted timestamp in the
ip_blocklist map and is_ip_blocked then treats the source as blocklisted -
after 101 spaced-out packets the flow still has packet_count 1 and flags 0
(100 of 101 packets were dropped).  And even granting the flow-update path
all 101 packets, the 101st sets only the TRUSTED_FLOW_FLAG bit: the
verdict stays 2, which is not VERDICT_TRUSTED, and a subsequent packet
through the TC fast path is shot (2 = VERDICT_DROP) with no bypass mark
applied. -/
theorem C3_cex_verdict_not_trusted_after_101 :
    ((c3Run 101).flowMap c3Key).map XdpFlowState.packetCount = some 1 ∧
    ((c3Run 101).flowMap c3Key).map XdpFlowState.flags = some 0 ∧
    (c3Run 101).stats.packetsDropped = 100 ∧
    ((c3Flow 100).flowMap c3Key).map XdpFlowState.flags = some 0 ∧
    ((c3Flow 101).flowMap c3Key).map XdpFlowState.flags = some 1 ∧
    ((c3Flow 101).flowMap c3Key).map XdpFlowState.packetCount = some 101 ∧
    ((c3Flow 101).flowMap c3Key).map XdpFlowState.verdict = some 2 ∧
    (c3Flow 101).stats.flowsOffloaded = 1 ∧
    some VERDICT_TRUSTED ≠ ((c3Flow 101).flowMap c3Key).map XdpFlowState.verdict ∧
    (tcFastPath tcStAfter101 tcSkbEx 1).1 = TC_ACT_SHOT ∧
    (tcFastPath tcStAfter101 tcSkbEx 1).2.1.mark = tcSkbEx.mark := by decide

/-- apply_qos always returns TC_ACT_OK. -/
theorem applyQos_action (st : TcState) (skb : Skb) (fs : TcFlowState) :
    (applyQos st skb fs).2 = TC_ACT_OK := by
  unfold applyQos
  split
  · rfl
  · split <;> rfl

/-- apply_qos either leaves skb->mark alone or ors in the QoS mark bit. -/
theorem applyQos_mark_cases (st : TcState) (skb : Skb) (fs : TcFlowState) :
    (applyQos st skb fs).1.mark = skb.mark ∨
    (applyQos st skb fs).1.mark = skb.mark ||| 0x100000 := by
  unfold applyQos
  split
  · exact Or.inl rfl
  · split
    · exact Or.inl rfl
    · right
      split <;> rfl

/-- apply_qos sets skb->priority from the configured profile. -/
theorem applyQos_priority_eq (st : TcState) (skb : Skb) (fs : TcFlowState)
    (q : QosProfile) (h1 : ¬ fs.qosProfile = QOS_PROFILE_DEFAULT)
    (h2 : st.qosProfiles fs.qosProfile = some q) :
    (applyQos st skb fs).1.priority = q.priority := by
  unfold applyQos
  rw [if_neg h1]
  simp only [h2]
  split <;> rfl

/-- On an skb already carrying the bypass mark, apply_qos leaves that bit
set. -/
theorem applyQos_keeps_bypass (st : TcState) (skb : Skb) (fs : TcFlowState)
    (h : skb.mark = NFQUEUE_BYPASS_MARK) :
    (applyQos st skb fs).1.mark &&& NFQUEUE_BYPASS_MARK = NFQUEUE_BYPASS_MARK := by
  rcases applyQos_mark_cases st skb fs with hm | hm <;> rw [hm, h] <;> decide

/-- C3 (amended): when a flow's packet_count crosses 100, the XDP program
sets TRUSTED_FLOW_FLAG in the flags field and increments flows_offloaded,
leaving the verdict field unchanged; the TC fast path applies the bypass
mark and the configured QoS priority only to flows whose verdict equals
VERDICT_TRUSTED = 1 (which only the control plane sets), and leaves the
skb untouched for any other verdict. -/
theorem C3_amended_threshold_flag_and_trusted_marking :
    (∀ (st : XdpState) (key : XdpFlowKey) (plen now : Nat) (fs : XdpFlowState),
      st.flowMap key = some fs →
      w64 (fs.packetCount + 1) > 100 → fs.flags &&& TRUSTED_FLOW_FLAG = 0 →
      (xdpFlowPart st key plen now).2.flowMap key =
        some { fs with packetCount := w64 (fs.packetCount + 1),
                       byteCount := w64 (fs.byteCount + plen),
                       lastSeen := now,
                       flags := fs.flags ||| TRUSTED_FLOW_FLAG } ∧
      (xdpFlowPart st key plen now).2.stats.flowsOffloaded =
        w64 (st.stats.flowsOffloaded + 1)) ∧
    (∀ (st : TcState) (skb : Skb) (now : Nat) (key : TcFlowKey) (s : TcFlowState),
      extractFlowKey skb = some key → st.flowMap key = some s →
      s.verdict ≠ VERDICT_TRUSTED → (tcFastPath st skb now).2.1 = skb) ∧
    (∀ (st : TcState) (skb : Skb) (now : Nat) (key : TcFlowKey) (s : TcFlowState),
      extractFlowKey skb = some key → st.flowMap key = some s →
      s.verdict = VERDICT_TRUSTED →
      (tcFastPath st skb now).2.1.mark &&& NFQUEUE_BYPASS_MARK = NFQUEUE_BYPASS_MARK) ∧
    (∀ (st : TcState) (skb : Skb) (now : Nat) (key : TcFlowKey) (s : TcFlowState)
      (q : QosProfile),
      extractFlowKey skb = some key → st.flowMap key = some s →
      s.verdict = VERDICT_TRUSTED → s.qosProfile ≠ QOS_PROFILE_DEFAULT →
      st.qosProfiles s.qosProfile = some q →
      (tcFastPath st skb now).2.1.priority = q.priority) := by
  refine ⟨?_, ?_, ?_, ?_⟩
  · intro st key plen now fs h h2 h3
    have hb : ((w64 (fs.packetCount + 1) > 100 : Bool) &&
        ((fs.flags &&& TRUSTED_FLOW_FLAG) == 0)) = true := by
      simp [h2, h3]
    constructor
    · simp only [xdpFlowPart, getOrCreateFlow, h, hb, ite_true]
      split <;> simp [upd]
    · simp only [xdpFlowPart, getOrCreateFlow, h, hb, ite_true]
      split <;> simp [updateStatistics]
  · intro st skb now key s hk hs hv
    simp only [tcFastPath, hk, hs]
    rw [if_neg (by simpa using hv)]
    split <;> rfl
  · intro st skb now key s hk hs hv
    simp only [tcFastPath, hk, hs]
    rw [if_pos (by simpa using hv)]
    rw [if_neg (by simp [applyQos_action])]
    exact applyQos_keeps_bypass _ _ _ rfl
  · intro st skb now key s q hk hs hv hq hqp
    simp only [tcFastPath, hk, hs]
    rw [if_pos (by simpa using hv)]
    rw [if_neg (by simp [applyQos_action])]
    exact applyQos_priority_eq _ _ _ q (by simpa using hq) (by simpa using hqp)

/-- A flow one packet short of the offload threshold. -/
def fs100 : XdpFlowState :=
  { verdict := 2, qosProfile := 0, flags := 0, packetCount := 100,
    byteCount := 4600, lastSeen := 0, createdAt := 0, expiresAt := 0 }

def stW : XdpState := { xdpSt0 with flowMap := upd (fun _ => none) c3Key fs100 }

def qosEx : QosProfile :=
  { rateLimit := 0, burstLimit := 0, priority := 7, appClass := 3 }

/-- A tc flow entry with an externally set Trusted verdict and QoS
profile 2. -/
def tcEntryTrusted : TcFlowState :=
  { firstSeen := 0, lastSeen := 0, packetCount := 0, byteCount := 0,
    verdict := VERDICT_TRUSTED, offloadMark := 0, qosProfile := 2, flags := 0 }

def tcStTrusted : TcState :=
  { flowMap := upd (fun _ => none) tcKeyEx tcEntryTrusted,
    qosProfiles := upd (fun _ => none) 2 qosEx, stats := tcStats0 }

/-- Witness for C3 (amended): the threshold crossing at packet 101 of
fs100, the untouched skb on the non-trusted entry, and bypass mark plus
priority 7 on the trusted entry with QoS profile 2. -/
theorem C3_amended_threshold_flag_and_trusted_marking_witness :
    ((xdpFlowPart stW c3Key 46 777).2.flowMap c3Key =
      some { fs100 with packetCount := w64 (fs100.packetCount + 1),
                        byteCount := w64 (fs100.byteCount + 46),
                        lastSeen := 777,
                        flags := fs100.flags ||| TRUSTED_FLOW_FLAG } ∧
     (xdpFlowPart stW c3Key 46 777).2.stats.flowsOffloaded =
       w64 (stW.stats.flowsOffloaded + 1)) ∧
    (tcFastPath tcStAfter101 tcSkbEx 1).2.1 = tcSkbEx ∧
    (tcFastPath tcStTrusted tcSkbEx 1).2.1.mark &&& NFQUEUE_BYPASS_MARK =
      NFQUEUE_BYPASS_MARK ∧
    (tcFastPath tcStTrusted tcSkbEx 1).2.1.priority = qosEx.priority :=
  ⟨C3_amended_threshold_flag_and_trusted_marking.1 stW c3Key 46 777 fs100
     (by decide) (by decide) (by decide),
   C3_amended_threshold_flag_and_trusted_marking.2.1 tcStAfter101 tcSkbEx 1
     tcKeyEx tcEntryAfter101 (by decide) (by decide) (by decide),
   C3_amended_threshold_flag_and_trusted_marking.2.2.1 tcStTrusted tcSkbEx 1
     tcKeyEx tcEntryTrusted (by decide) (by decide) (by decide),
   C3_amended_threshold_flag_and_trusted_marking.2.2.2 tcStTrusted tcSkbEx 1
     tcKeyEx tcEntryTrusted qosEx (by decide) (by decide) (by decide)
     (by decide) (by decide)⟩

/-! ## C6 -/

/-- A flow entry whose expires_at (20 ns) lies far in the past of
c6Now = 10^13 ns, with verdict XDP_DROP. -/
def c6Fs : XdpFlowState :=
  { verdict := XDP_DROP, qosProfile := 0, flags := 0, packetCount := 5,
    byteCount := 100, lastSeen := 10, createdAt := 10, expiresAt := 20 }

def c6Now : Nat := 10 ^ 13

def c6St : XdpState := { xdpSt0 with flowMap := upd (fun _ => none) xdpKeyEx c6Fs }

/-- Counterexample to C6: the entry is long expired, yet get_or_create_flow
returns it unchanged (it is not treated as absent: no fresh entry with
created_at = now is made), and the flow path still applies its Drop
verdict, where a flow treated as new would have been passed. -/
theorem C6_cex_expired_entry_still_used :
    isExpired c6Now c6Fs.expiresAt = true ∧
    (getOrCreateFlow c6St.flowMap xdpKeyEx c6Now).1 = c6Fs ∧
    (getOrCreateFlow c6St.flowMap xdpKeyEx c6Now).1.createdAt ≠ c6Now ∧
    (xdpFlowPart c6St xdpKeyEx 46 c6Now).1 = XDP_DROP ∧
    (xdpFlowPart xdpSt0 xdpKeyEx 46 c6Now).1 = XDP_PASS := by decide

/-- C6 (amended): no lookup consults expires_at.  get_or_create_flow
returns an entry however long expired, with the map unchanged; the XDP
flow path applies the expired entry's Drop verdict; and the TC fast path,
whose flow_state (flow.h) has no expires_at field at all, applies a stored
Drop verdict unconditionally.  is_expired exists but has no caller; only
LRU eviction removes entries. -/
theorem C6_amended_lookup_ignores_expiry :
    (∀ (m : XdpFlowKey → Option XdpFlowState) (key : XdpFlowKey) (now : Nat)
      (s : XdpFlowState), m key = some s → isExpired now s.expiresAt = true →
      getOrCreateFlow m key now = (s, m)) ∧
    (∀ (st : XdpState) (key : XdpFlowKey) (plen now : Nat) (s : XdpFlowState),
      st.flowMap key = some s → isExpired now s.expiresAt = true →
      s.verdict = XDP_DROP → (xdpFlowPart st key plen now).1 = XDP_DROP) ∧
    (∀ (st : TcState) (skb : Skb) (now : Nat) (key : TcFlowKey) (s : TcFlowState),
      extractFlowKey skb = some key → st.flowMap key = some s →
      s.verdict = VERDICT_DROP → (tcFastPath st skb now).1 = TC_ACT_SHOT) := by
  refine ⟨?_, ?_, ?_⟩
  · intro m key now s h _hexp
    simp only [getOrCreateFlow, h]
  · intro st key plen now s h _hexp hv
    simp only [xdpFlowPart, getOrCreateFlow, h]
    split <;> simp [hv]
  · intro st skb now key s hk hs hv
    simp only [tcFastPath, hk, hs]
    rw [if_neg (by simp [hv, VERDICT_DROP, VERDICT_TRUSTED]),
        if_pos (by simp [hv])]

/-- Witness for C6 (amended): the expired Drop entry c6Fs through all
three lookups. -/
theorem C6_amended_lookup_ignores_expiry_witness :
    getOrCreateFlow c6St.flowMap xdpKeyEx c6Now = (c6Fs, c6St.flowMap) ∧
    (xdpFlowPart c6St xdpKeyEx 46 c6Now).1 = XDP_DROP ∧
    (tcFastPath tcStAfter101 tcSkbEx c6Now).1 = TC_ACT_SHOT :=
  ⟨C6_amended_lookup_ignores_expiry.1 c6St.flowMap xdpKeyEx c6Now c6Fs
     (by decide) (by decide),
   C6_amended_lookup_ignores_expiry.2.1 c6St xdpKeyEx 46 c6Now c6Fs
     (by decide) (by decide) (by decide),
   C6_amended_lookup_ignores_expiry.2.2 tcStAfter101 tcSkbEx c6Now
     tcKeyEx tcEntryAfter101 (by decide) (by decide) (by decide)⟩

/-! ## C7 -/

/-- An ordinary TCP packet from the blocklisted source of xdpStBlocked:
its drop is one of the XDP program's event-emitting paths. -/
def c7Pkt : XdpPacket :=
  { pktLen := 60, hProto := hton16 0x0800, fragOff := 0, saddr := 0x0A000001,
    daddr := 5, protocol := 6, totLen := hton16 46, udpSource := 1,
    udpDest := 2, dns := [] }

/-- Counterexample to C7: when the ring-buffer reservation fails, the XDP
program's send_event drops the blocked-IP event and changes no counter at
all - the entire statistics block is identical to the successful-emission
run - while the packet still receives its XDP_DROP verdict.  No error
counter is incremented by one per dropped event on this path. -/
theorem C7_cex_xdp_event_dropped_without_counter :
    (xdpProg xdpStBlocked c7Pkt 5 false).1 = XDP_DROP ∧
    (xdpProg xdpStBlocked c7Pkt 5 false).2.events = [] ∧
    (xdpProg xdpStBlocked c7Pkt 5 false).2.stats =
      (xdpProg xdpStBlocked c7Pkt 5 true).2.stats ∧
    (xdpProg xdpStBlocked c7Pkt 5 true).2.events.length = 1 := by decide

/-- C7 (amended): on a failed ring-buffer reservation the DNS emitter
increments STAT_ERRORS by exactly one and emits nothing; the XDP emitter
send_event drops the event silently, touching neither counters nor
anything else; and in every case the XDP action is the same as if the
reservation had succeeded - the packet path never blocks on the event
channel. -/
theorem C7_amended_channel_full_behaviour :
    (∀ (st : DnsState) (key : DnsKey) (qi : Option DnsQueryInfo)
      (ri : Option DnsRespInfo) (isr : Bool) (now pid tid : Nat),
      (sendDnsEvent st false key qi ri isr now pid tid).stats.errors =
        w64 (st.stats.errors + 1) ∧
      (sendDnsEvent st false key qi ri isr now pid tid).events = st.events) ∧
    (∀ (st : XdpState) (etype srcIp dstIp srcPort dstPort protocol : Nat)
      (data : List Nat) (dataLen now : Nat),
      sendEventX st false etype srcIp dstIp srcPort dstPort protocol
        data dataLen now = st) ∧
    (∀ (st : XdpState) (p : XdpPacket) (now : Nat),
      14 ≤ p.pktLen → p.hProto = hton16 0x0800 → 14 + 20 ≤ p.pktLen →
      p.fragOff &&& hton16 0x3FFF = 0 → isIpBlocked st p.saddr = true →
      (xdpProg st p now false).1 = XDP_DROP ∧
      (xdpProg st p now false).1 = (xdpProg st p now true).1) := by
  refine ⟨?_, ?_, ?_⟩
  · intro st key qi ri isr now pid tid
    constructor <;> simp [sendDnsEvent]
  · intro st etype srcIp dstIp srcPort dstPort protocol data dataLen now
    rfl
  · intro st p now h1 h2 h3 h4 h5
    have hrun : ∀ b : Bool, (xdpProg st p now b).1 = XDP_DROP := by
      intro b
      unfold xdpProg
      rw [if_neg (by omega), if_neg (by simp [h2]), if_neg (by omega),
          if_neg (by simp [h4]), if_pos h5]
    exact ⟨hrun false, by rw [hrun false, hrun true]⟩

/-- Witness for C7 (amended). -/
theorem C7_amended_channel_full_behaviour_witness :
    ((sendDnsEvent dnsSt0 false dnsQKey none none false 1 2 3).stats.errors =
      w64 (dnsSt0.stats.errors + 1) ∧
     (sendDnsEvent dnsSt0 false dnsQKey none none false 1 2 3).events =
      dnsSt0.events) ∧
    sendEventX xdpStBlocked false 1 2 3 4 5 6 [] 0 9 = xdpStBlocked ∧
    ((xdpProg xdpStBlocked c7Pkt 5 false).1 = XDP_DROP ∧
     (xdpProg xdpStBlocked c7Pkt 5 false).1 =
       (xdpProg xdpStBlocked c7Pkt 5 true).1) :=
  ⟨C7_amended_channel_full_behaviour.1 dnsSt0 dnsQKey none none false 1 2 3,
   C7_amended_channel_full_behaviour.2.1 xdpStBlocked 1 2 3 4 5 6 [] 0 9,
   C7_amended_channel_full_behaviour.2.2 xdpStBlocked c7Pkt 5
     (by decide) (by decide) (by decide) (by decide) (by decide)⟩

/-! ## C8 -/

/-- A DHCP options region in which option 12 declares length 10 but only 2
value bytes remain in the buffer. -/
def c8Buf : List Nat := [12, 10, 65, 66]

/-- Counterexample to C8: the option whose declared length exceeds the
remaining buffer is not truncated to the buffer and extracted - the scan
skips it and the parse fails with -1, returning no value bytes. -/
theorem C8_cex_overlong_option_not_truncated :
    (parseDhcpOptions c8Buf 4 0 12 63).ret = -1 ∧
    (parseDhcpOptions c8Buf 4 0 12 63).value = [] := by decide

/-- C8 (amended): a matching option's declared length is clamped to the
caller's max_len (the destination capacity), and the value is extracted
only when the clamped length fits the remaining buffer; an option whose
clamped length would exceed the remaining buffer is skipped - the scan
advances past it and continues - so a sought option found only in
truncated form at the end of the buffer yields -1, as on c8Buf. -/
theorem C8_amended_truncation_to_max_len_only :
    (∀ (data : List Nat) (dataLen optType maxLen fuel pos optLen2 : Nat),
      pos + 2 ≤ dataLen → data.getD pos 0 = optType → ¬ optType = 255 →
      optLen2 = (if data.getD (pos + 1) 0 > maxLen then maxLen
                 else data.getD (pos + 1) 0) →
      pos + 2 + optLen2 ≤ dataLen →
      parseDhcpOptionsGo data dataLen optType maxLen (fuel + 1) pos =
        { ret := (optLen2 : Int), pos := pos + 2,
          value := (data.drop (pos + 2)).take optLen2 }) ∧
    (∀ (data : List Nat) (dataLen optType maxLen fuel pos optLen2 : Nat),
      pos + 2 ≤ dataLen → data.getD pos 0 = optType → ¬ optType = 255 →
      optLen2 = (if data.getD (pos + 1) 0 > maxLen then maxLen
                 else data.getD (pos + 1) 0) →
      ¬ pos + 2 + optLen2 ≤ dataLen →
      parseDhcpOptionsGo data dataLen optType maxLen (fuel + 1) pos =
        parseDhcpOptionsGo data dataLen optType maxLen fuel (pos + 2 + optLen2)) ∧
    (parseDhcpOptions c8Buf 4 0 12 63).ret = -1 := by
  refine ⟨?_, ?_, by decide⟩
  · intro data dataLen optType maxLen fuel pos optLen2 h1 h2 h3 h4 h5
    subst h4; subst h2
    simp only [parseDhcpOptionsGo]
    rw [if_pos h1, if_neg h3, if_pos trivial, if_pos h5]
  · intro data dataLen optType maxLen fuel pos optLen2 h1 h2 h3 h4 h5
    subst h4; subst h2
    simp only [parseDhcpOptionsGo]
    rw [if_pos h1, if_neg h3, if_pos trivial, if_neg h5]

/-- Witness for C8 (amended): option 12 with declared length 3 clamped to
max_len 2 and extracted, and the skip equation on c8Buf. -/
theorem C8_amended_truncation_to_max_len_only_witness :
    parseDhcpOptionsGo [12, 3, 65, 66, 67] 5 12 2 7 0 =
      { ret := 2, pos := 2, value := [65, 66] } ∧
    parseDhcpOptionsGo c8Buf 4 12 63 5 0 = parseDhcpOptionsGo c8Buf 4 12 63 4 12 :=
  ⟨C8_amended_truncation_to_max_len_only.1 [12, 3, 65, 66, 67] 5 12 2 6 0 2
     (by decide) (by decide) (by decide) (by decide) (by decide),
   C8_amended_truncation_to_max_len_only.2.1 c8Buf 4 12 63 4 0 10
     (by decide) (by decide) (by decide) (by decide) (by decide)⟩

/-! ## C9 -/

/-- The SNI copy loop writes at most rem further bytes. -/
theorem sniCopy_length (data : List Nat) (dataLen pos : Nat) :
    ∀ (rem i : Nat) (acc : List Nat),
      (sniCopy data dataLen pos i rem acc).length ≤ acc.length + rem := by
  intro rem
  induction rem with
  | zero => intro i acc; simp [sniCopy]
  | succ n ih =>
    intro i acc
    simp only [sniCopy]
    split
    · calc (sniCopy data dataLen pos (i + 1) n (acc ++ [data.getD (pos + i) 0])).length
          ≤ (acc ++ [data.getD (pos + i) 0]).length + n := ih (i + 1) _
        _ ≤ acc.length + (n + 1) := by simp; omega
    · omega

/-- The extensions walk never yields an SNI list of sniMax or more bytes. -/
theorem tlsExtGo_sni_length (data : List Nat) (dataLen sniMax extEnd : Nat)
    (hs : 1 ≤ sniMax) :
    ∀ (fuel pos : Nat),
      (tlsExtGo data dataLen sniMax extEnd fuel pos).sni.length ≤ sniMax - 1 := by
  intro fuel
  induction fuel with
  | zero => intro pos; simp [tlsExtGo]
  | succ n ih =>
    intro pos
    simp only [tlsExtGo]
    split
    · split
      · simp
      · split
        · split
          · simp
          · split
            · simp
            · refine le_trans (sniCopy_length data dataLen _ _ 0 []) ?_
              simp only [List.length_nil, Nat.zero_add]
              split <;> omega
        · exact ih _
    · simp

/-- parse_tls_sni writes at most 63 SNI bytes for sni_max = 64. -/
theorem parseTlsSni_sni_length (data : List Nat) (dataLen : Nat) :
    (parseTlsSni data dataLen MAX_SNI_LEN).sni.length ≤ 63 := by
  simp only [parseTlsSni]
  split
  · simp
  · split
    · simp
    · split
      · simp
      · split
        · simp
        · split
          · simp
          · exact tlsExtGo_sni_length data dataLen MAX_SNI_LEN _ (by decide) _ _

/-- send_tls_event never modifies the handshake map. -/
theorem sendTlsEvent_handshakes (st : TlsState) (ok : Bool) (key : TlsKey)
    (info : TlsInfo) (now pid tid skbLen : Nat) :
    (sendTlsEvent st ok key info now pid tid skbLen).handshakes = st.handshakes := by
  unfold sendTlsEvent
  split <;> rfl

theorem upd_same {K V : Type} [DecidableEq K] (m : K → Option V) (k : K)
    (v : V) : upd m k v k = some v := by simp [upd]

def tlsStats0 : TlsStats :=
  { handshakesObserved := 0, certificatesValid := 0, certificatesInvalid := 0,
    errors := 0 }

def tlsSt0 : TlsState :=
  { handshakes := fun _ => none, stats := tlsStats0, events := [] }

/-- A minimal ClientHello TCP payload whose cipher-suite list is
[0x13, 0x01] (TLS_AES_128_GCM_SHA256) and whose SNI is the two bytes
"ab". -/
def tlsPayloadA : List Nat :=
  [0x16, 0x03, 0x01, 0x00, 0x18,
   0x01, 0x00, 0x00, 0x14,
   0x00,
   0x00, 0x02, 0x13, 0x01,
   0x01, 0x00,
   0x00, 0x0B,
   0x00, 0x00, 0x00, 0x07,
   0x00, 0x05, 0x00, 0x00, 0x02, 0x61, 0x62]

/-- The same ClientHello with cipher-suite list [0x00, 0xFF] instead. -/
def tlsPayloadB : List Nat :=
  [0x16, 0x03, 0x01, 0x00, 0x18,
   0x01, 0x00, 0x00, 0x14,
   0x00,
   0x00, 0x02, 0x00, 0xFF,
   0x01, 0x00,
   0x00, 0x0B,
   0x00, 0x00, 0x00, 0x07,
   0x00, 0x05, 0x00, 0x00, 0x02, 0x61, 0x62]

def tlsPktA : TlsPacket :=
  { pktLen := 83, hProto := hton16 0x0800, ihl := 5, protocol := 6, doff := 5,
    saddr := 0x0A000001, daddr := 0x0B000002, sport := 0x9999, dport := 0xBB01,
    payload := tlsPayloadA, skbLen := 83 }

def tlsPktB : TlsPacket := { tlsPktA with payload := tlsPayloadB }

def tlsKeyEx : TlsKey :=
  { srcIp := 0x0A000001, dstIp := 0x0B000002, srcPort := 0x9999, dstPort := 0xBB01 }

/-- The record tls_socket_filter stores for tlsPktA (and tlsPktB). -/
def tlsInfoEx : TlsInfo :=
  { version := 0x0301, cipherSuite := 0, sni := [0x61, 0x62],
    ja3Hash := produceJa3 0x0301 0 [0x61, 0x62], timestamp := 777 }

/-- Counterexample to C9: two ClientHellos that differ exactly in their
cipher-suite list produce identical stored TLSHandshakeRecords, whose
cipher_suite field is 0 - not the 0x1301 the first hello carries.  The
cipher suite is never derived from the ClientHello being parsed. -/
theorem C9_cex_cipher_suite_not_derived :
    (tlsSocketFilter tlsSt0 tlsPktA 777 1 2 true).handshakes tlsKeyEx =
      some tlsInfoEx ∧
    (tlsSocketFilter tlsSt0 tlsPktB 777 1 2 true).handshakes tlsKeyEx =
      some tlsInfoEx ∧
    tlsInfoEx.cipherSuite = 0 ∧
    ¬ tlsInfoEx.cipherSuite = 0x1301 := by decide

/-- C9 (amended): every stored handshake record for a processed
ClientHello carries the record-header version, the SNI (at most 63 bytes),
a 128-bit fingerprint (four u32 words) and the creation timestamp - but
its cipher_suite field is always 0, never taken from the ClientHello. -/
theorem C9_amended_record_fields :
    ∀ (st : TlsState) (p : TlsPacket) (now pid tid : Nat) (ok : Bool)
      (info : TlsInfo),
      14 + 20 + 20 ≤ p.pktLen → p.hProto = hton16 0x0800 → p.protocol = 6 →
      14 + p.ihl * 4 + p.doff * 4 + 5 ≤ p.pktLen →
      p.payload.getD 0 0 = 0x16 →
      14 + p.ihl * 4 + p.doff * 4 + 5 + 4 ≤ p.pktLen →
      p.payload.getD 5 0 = 0x01 →
      (tlsSocketFilter st p now pid tid ok).handshakes
          { srcIp := p.saddr, dstIp := p.daddr,
            srcPort := p.sport, dstPort := p.dport } = some info →
      info.cipherSuite = 0 ∧ info.timestamp = now ∧
      info.version = (p.payload.getD 1 0 <<< 8) ||| p.payload.getD 2 0 ∧
      info.sni.length ≤ 63 ∧ info.ja3Hash.length = 4 := by
  intro st p now pid tid ok info h1 h2 h3 h4 h5 h6 h7 hlook
  simp only [tlsSocketFilter] at hlook
  rw [if_neg (by omega), if_neg (by simp [h2, h3]), if_neg (by omega),
      if_neg (fun hc => hc h5), if_neg (by omega), if_neg (fun hc => hc h7),
      sendTlsEvent_handshakes] at hlook
  dsimp only at hlook
  rw [upd_same] at hlook
  injection hlook with hinfo
  subst hinfo
  exact ⟨rfl, rfl, rfl, parseTlsSni_sni_length _ _, rfl⟩

/-- Witness for C9 (amended), at the concrete ClientHello tlsPktA. -/
theorem C9_amended_record_fields_witness :
    tlsInfoEx.cipherSuite = 0 ∧ tlsInfoEx.timestamp = 777 ∧
    tlsInfoEx.version =
      (tlsPktA.payload.getD 1 0 <<< 8) ||| tlsPktA.payload.getD 2 0 ∧
    tlsInfoEx.sni.length ≤ 63 ∧ tlsInfoEx.ja3Hash.length = 4 :=
  C9_amended_record_fields tlsSt0 tlsPktA 777 1 2 true tlsInfoEx
    (by decide) (by decide) (by decide) (by decide) (by decide) (by decide)
    (by decide) (by decide)

end Flywall
